import Mathlib

/-!
Shallow embedding of the treasury payment workflow orchestrator
(`flask_server.py` of the Agent-3.0 repository) and proofs of the
specification's claims about it.

JSON-like Python values are modelled by `JVal`; Python dicts by
association lists with first-match lookup and in-place update.  The two
opaque pipelines (proposal generation and payment execution) are
modelled as function parameters returning either an exception
(`Except.error`) or an output value; `json.loads` is modelled as an
abstract partial parse function `String → Option JVal`.
-/

/-- A Python/JSON value as it appears in the orchestrator's state. -/
inductive JVal where
  | null
  | bool (b : Bool)
  | num (n : Int)
  | str (s : String)
  | arr (xs : List JVal)
  | obj (fields : List (String × JVal))

/-- A Python dict with string keys: association list, first match wins. -/
abbrev Dict := List (String × JVal)

/-- Dict lookup (`d.get(k)` / `d[k]`): first binding of the key. -/
def dlookup : Dict → String → Option JVal
  | [], _ => none
  | (k', v) :: rest, k => if k' = k then some v else dlookup rest k

/-- Dict membership (`k in d`). -/
def dmem (d : Dict) (k : String) : Bool := (dlookup d k).isSome

/-- Dict update (`d[k] = v`): overwrite in place, or append a new key. -/
def dset : Dict → String → JVal → Dict
  | [], k, v => [(k, v)]
  | (k', v') :: rest, k, v => if k' = k then (k, v) :: rest else (k', v') :: dset rest k v

/-- `listPrefix n h`: the list `n` is a prefix of `h`. -/
def listPrefix : List Char → List Char → Bool
  | [], _ => true
  | _ :: _, [] => false
  | a :: as, b :: bs => a = b && listPrefix as bs

/-- `listInfix n h`: the list `n` occurs contiguously inside `h`. -/
def listInfix (needle : List Char) : List Char → Bool
  | [] => listPrefix needle []
  | b :: bs => listPrefix needle (b :: bs) || listInfix needle bs

/-- Python's substring test `needle in hay` on strings. -/
def substrOf (needle hay : String) : Bool := listInfix needle.toList hay.toList

/-- Output of a pipeline call, as duck-typed by the orchestrator:
a CrewOutput-style wrapper carrying a raw string under `.raw`,
a plain string, or any other Python value (`val`, e.g. a mapping). -/
inductive PipeOut where
  | wrapper (raw : String)
  | str (s : String)
  | val (v : JVal)

/-- An HTTP-level response from a handler: a JSON success body with a
status code, an `_error` envelope with a status code, or an uncaught
Python exception propagating out of the handler. -/
inductive Resp where
  | ok (body : JVal) (code : Nat)
  | err (msg : String) (code : Nat)
  | raised (msg : String)

/-- The in-memory proposal store (`proposals` module global). -/
abbrev Store := List (String × JVal)

/-- `_validate_config` (flask_server.py lines 26-43): raises `ValueError`
(here `Except.error` with the message) on the first failing check. -/
def validate_config (cfg : Dict) : Except String Unit :=
  if !dmem cfg "user_id" then .error "Missing required field: user_id"
  else if !dmem cfg "risk_config" then .error "Missing required field: risk_config"
  else
    match dlookup cfg "risk_config" with
    | some (.obj risk) =>
      if !dmem risk "min_balance_usd" then .error "risk_config.min_balance_usd is required"
      else
        match dlookup risk "transaction_limits" with
        | some (.obj tx) =>
          if !dmem tx "single" then .error "risk_config.transaction_limits.single is required"
          else if !dmem tx "daily" then .error "risk_config.transaction_limits.daily is required"
          else .ok ()
        | _ => .error "risk_config.transaction_limits is required"
    | _ => .error "risk_config must be an object"

/-- Is the value of `approval_decision` the given string? -/
def decisionIs (data : Dict) (s : String) : Bool :=
  match dlookup data "approval_decision" with
  | some (.str t) => t = s
  | _ => false

/-- `_validate_payment_approval` (flask_server.py lines 45-64). -/
def validate_payment_approval (data : Dict) : Except String Unit :=
  if !dmem data "proposal_id" then .error "Missing required field: proposal_id"
  else if !dmem data "custody_wallet" then .error "Missing required field: custody_wallet"
  else if !dmem data "private_key" then .error "Missing required field: private_key"
  else if !dmem data "approval_decision" then .error "Missing required field: approval_decision"
  else if !(decisionIs data "approve_all" || decisionIs data "reject_all" ||
            decisionIs data "partial") then
    .error "Invalid approval_decision. Must be one of: approve_all, reject_all, partial"
  else if decisionIs data "partial" then
    if !dmem data "approved_payments" then
      .error "approved_payments is required for partial approval"
    else
      match dlookup data "approved_payments" with
      | some (.arr _) => .ok ()
      | _ => .error "approved_payments must be an array"
  else .ok ()

/-- Normalization of the proposal pipeline's output
(flask_server.py lines 179-190): a `raw`-wrapper is parsed from its raw
string, a plain string is parsed, anything else passes through; a failed
parse falls back to `{"raw": <the raw string>}`. -/
def normalize_proposal_result (parse : String → Option JVal) : PipeOut → JVal
  | .wrapper raw =>
    match parse raw with
    | some v => v
    | none => .obj [("raw", .str raw)]
  | .str s =>
    match parse s with
    | some v => v
    | none => .obj [("raw", .str s)]
  | .val v => v

/-- Normalization of the execution pipeline's output
(flask_server.py lines 273-284): same precedence, but a failed parse
falls back to `{"execution_status": "FAILURE", "message": <raw>}`. -/
def normalize_execution_result (parse : String → Option JVal) : PipeOut → JVal
  | .wrapper raw =>
    match parse raw with
    | some v => v
    | none => .obj [("execution_status", .str "FAILURE"), ("message", .str raw)]
  | .str s =>
    match parse s with
    | some v => v
    | none => .obj [("execution_status", .str "FAILURE"), ("message", .str s)]
  | .val v => v

/-- The context bundle handed to the proposal pipeline
(flask_server.py lines 167-172). -/
def proposal_context (pid : String) (cfg : Dict) (fname : String) : Dict :=
  [("proposal_id", .str pid),
   ("config", .obj cfg),
   ("excel_file_path", .str ("temp_excel_" ++ pid ++ ".xlsx")),
   ("excel_filename", .str fname)]

/-- The execution context built by `submit_payment_approval`
(flask_server.py lines 256-265).  `none` models the `KeyError` raised by
direct indexing when a required key is absent (unreachable after
validation). -/
def approval_context (data : Dict) (pidv proposal_data : JVal) : Option Dict :=
  match dlookup data "custody_wallet", dlookup data "private_key",
        dlookup data "approval_decision" with
  | some cw, some pk, some ad =>
    some [("proposal_id", pidv),
          ("proposal_data", proposal_data),
          ("custody_wallet", cw),
          ("private_key", pk),
          ("approval_decision", ad),
          ("approved_payments", (dlookup data "approved_payments").getD (.arr [])),
          ("comments", (dlookup data "comments").getD (.str ""))]
  | _, _, _ => none

/-- `POST /submit_request` (flask_server.py lines 127-215), starting after
the multipart/JSON decoding boundary: `cfg` is the decoded config,
`readFault`/`excelEmpty` model the Excel read, `saveFault` the temp-file
write (carrying the exception text), `pid` the `id_provider()` output and
`pipeF` the proposal pipeline adapter. -/
def submit_request (parse : String → Option JVal) (store : Store) (cfg : Dict)
    (readFault excelEmpty : Bool) (saveFault : Option String) (pid fname : String)
    (pipeF : Dict → Except String PipeOut) : Resp × Store :=
  match validate_config cfg with
  | .error ve => (.err ve 400, store)
  | .ok () =>
    if readFault then (.err "Failed to read 'excel' file" 400, store)
    else if excelEmpty then (.err "Uploaded 'excel' file is empty" 400, store)
    else
      match saveFault with
      | some e => (.err ("Failed to save Excel file: " ++ e) 500, store)
      | none =>
        match pipeF (proposal_context pid cfg fname) with
        | .error e => (.err ("Crew error: " ++ e) 500, store)
        | .ok out =>
          let result := normalize_proposal_result parse out
          (.ok (.obj [("success", .bool true),
                      ("proposal_id", .str pid),
                      ("message", .str "Proposal generated successfully."),
                      ("next_step", .str ("GET /get_payment_proposal/" ++ pid))]) 202,
           dset store pid result)

/-- `GET /get_payment_proposal/<proposal_id>` (flask_server.py lines 217-225). -/
def get_payment_proposal (store : Store) (pid : String) : Resp × Store :=
  match dlookup store pid with
  | some p => (.ok p 200, store)
  | none => (.err "Proposal not found" 404, store)

/-- `POST /submit_payment_approval` (flask_server.py lines 227-311),
starting after the JSON decoding boundary.  `execF` is the execution
pipeline adapter.  Uncaught Python exceptions (`KeyError` on a missing
validated field, `TypeError` on an unhashable proposal id or a non-dict
stored proposal, `AttributeError` when `.get` is called on a non-dict
normalized result) are modelled by `Resp.raised`. -/
def submit_payment_approval (parse : String → Option JVal)
    (execF : Dict → Except String PipeOut) (store : Store) (data : Dict) :
    Resp × Store :=
  match validate_payment_approval data with
  | .error ve => (.err ve 400, store)
  | .ok () =>
    match dlookup data "proposal_id" with
    | none => (.raised "KeyError: proposal_id", store)
    | some pidv =>
      match pidv with
      | .arr _ => (.raised "TypeError: unhashable type", store)
      | .obj _ => (.raised "TypeError: unhashable type", store)
      | .str pid =>
        match dlookup store pid with
        | none => (.err "Proposal not found" 404, store)
        | some proposal_data =>
          match approval_context data (.str pid) proposal_data with
          | none => (.raised "KeyError", store)
          | some context =>
            match execF context with
            | .error e => (.err ("Payment execution failed: " ++ e) 500, store)
            | .ok out =>
              let execution_result := normalize_execution_result parse out
              match execution_result with
              | .obj erf =>
                let status := (dlookup erf "execution_status").getD (.str "FAILURE")
                let msg := (dlookup erf "message").getD (.str "Payment execution completed")
                match proposal_data with
                | .obj pf =>
                  (.ok (.obj [("success", .bool true),
                              ("execution_status", status),
                              ("message", msg),
                              ("next_step", .str ("GET /payment_execution_result/" ++ pid))]) 200,
                   dset store pid (.obj (dset pf "execution_result" execution_result)))
                | _ => (.raised "TypeError: item assignment", store)
              | _ => (.raised "AttributeError: get", store)
      | _ =>
        -- a hashable non-string id is never a key of the store
        (.err "Proposal not found" 404, store)

/-- Python's `k in v` on an arbitrary value: key membership on a dict,
value membership on a list, substring test on a string, `TypeError`
otherwise. -/
def jmem (k : String) : JVal → Except String Bool
  | .obj fs => .ok (dmem fs k)
  | .arr xs => .ok (xs.any fun v => match v with | .str s => s = k | _ => false)
  | .str s => .ok (substrOf k s)
  | _ => .error "TypeError: argument is not iterable"

/-- Python's `v[k]` with a string key: dict indexing, `TypeError` on
anything else (`KeyError` on a dict without the key). -/
def jindex (v : JVal) (k : String) : Except String JVal :=
  match v with
  | .obj fs =>
    match dlookup fs k with
    | some w => .ok w
    | none => .error "KeyError"
  | _ => .error "TypeError: indices"

/-- `GET /payment_execution_result/<proposal_id>`
(flask_server.py lines 313-339), in-memory behaviour only: the on-disk
cleanup is modelled separately (`get_payment_execution_result_io`) and
never affects the store or the response.  The handler's outer
`try/except` turns any internal exception into a 500 `Internal error`. -/
def get_payment_execution_result (store : Store) (pid : String) : Resp × Store :=
  match dlookup store pid with
  | none => (.err "Proposal not found" 404, store)
  | some proposal_data =>
    match jmem "execution_result" proposal_data with
    | .error e => (.err ("Internal error: " ++ e) 500, store)
    | .ok false => (.err "No execution result found for this proposal" 404, store)
    | .ok true =>
      match jindex proposal_data "execution_result" with
      | .ok er => (.ok er 200, store)
      | .error e => (.err ("Internal error: " ++ e) 500, store)

/-- Fault model for the on-disk artifact store: which `os.remove` calls
raise, whether `os.listdir` raises, whether `os.makedirs` raises. -/
structure FsEnv where
  removeFault : String → Bool
  listdirFault : Bool
  makedirsFault : Bool

/-- `try: os.remove(p) except: pass` on the file list `fs`. -/
def tryRemove (env : FsEnv) (fs : List String) (p : String) : List String :=
  if env.removeFault p then fs else fs.erase p

/-- The three named artifact candidates (flask_server.py lines 80-84). -/
def candidateNames (pid : String) : List String :=
  ["temp_excel_" ++ pid ++ ".xlsx",
   "proposal_" ++ pid ++ ".json",
   "execution_result_" ++ pid ++ ".json"]

/-- The body of `_cleanup_proposal_artifacts` inside its outer `try`
(flask_server.py lines 78-103): `Except.error` marks an exception that
would reach the outer handler. -/
def cleanup_body (env : FsEnv) (fs : List String) (pid : String) :
    Except String (List String) :=
  if env.makedirsFault then .error "OSError: makedirs"
  else
    let fs1 := (candidateNames pid).foldl
      (fun acc p => if p ∈ acc then tryRemove env acc p else acc) fs
    let fs2 :=
      if env.listdirFault then fs1
      else fs1.foldl
        (fun acc n => if substrOf pid n && n ∈ acc then tryRemove env acc n else acc) fs1
    .ok fs2

/-- `_cleanup_proposal_artifacts` (flask_server.py lines 74-105): the
outer `try/except: pass` turns any escaping exception into a no-op. -/
def cleanup_proposal_artifacts (env : FsEnv) (fs : List String) (pid : String) :
    Except String (List String) :=
  match cleanup_body env fs pid with
  | .ok fs' => .ok fs'
  | .error _ => .ok fs

/-- `GET /payment_execution_result/<proposal_id>` with the on-disk
artifact store threaded through (flask_server.py lines 313-339,
including the cleanup call at lines 330-333, itself wrapped in a
`try/except: pass`). -/
def get_payment_execution_result_io (env : FsEnv) (store : Store)
    (fs : List String) (pid : String) : Resp × Store × List String :=
  match dlookup store pid with
  | none => (.err "Proposal not found" 404, store, fs)
  | some proposal_data =>
    match jmem "execution_result" proposal_data with
    | .error e => (.err ("Internal error: " ++ e) 500, store, fs)
    | .ok false => (.err "No execution result found for this proposal" 404, store, fs)
    | .ok true =>
      match jindex proposal_data "execution_result" with
      | .ok er =>
        let fs' :=
          match cleanup_proposal_artifacts env fs pid with
          | .ok f => f
          | .error _ => fs
        (.ok er 200, store, fs')
      | .error e => (.err ("Internal error: " ++ e) 500, store, fs)

/-- One external operation against the orchestrator, carrying the
behaviour of the opaque collaborators for that call. -/
inductive Op where
  | subReq (cfg : Dict) (readFault excelEmpty : Bool) (saveFault : Option String)
      (pid fname : String) (pipeF : Dict → Except String PipeOut)
  | getProp (pid : String)
  | subAppr (data : Dict) (execF : Dict → Except String PipeOut)
  | getExec (pid : String)

/-- One request handled against the store. -/
def opStep (parse : String → Option JVal) (store : Store) : Op → Resp × Store
  | .subReq cfg rf ee sf pid fname pipeF =>
    submit_request parse store cfg rf ee sf pid fname pipeF
  | .getProp pid => get_payment_proposal store pid
  | .subAppr data execF => submit_payment_approval parse execF store data
  | .getExec pid => get_payment_execution_result store pid

/-- A sequence of requests, threading the store. -/
def opRun (parse : String → Option JVal) (store : Store) : List Op → Store
  | [] => store
  | op :: ops => opRun parse (opStep parse store op).2 ops

/-- An operation respects identifier freshness: a proposal submission's
`id_provider()` output is not already a key of the store (uuid4 never
repeats an existing identifier). -/
def freshOp (store : Store) : Op → Bool
  | .subReq _ _ _ _ pid _ _ => !dmem store pid
  | _ => true

/-- Every submission in the sequence uses a fresh identifier at its turn. -/
def freshRun (parse : String → Option JVal) (store : Store) : List Op → Bool
  | [] => true
  | op :: ops => freshOp store op && freshRun parse (opStep parse store op).2 ops

/-- Field of a stored value when it is a mapping. -/
def jfield (v : JVal) (k : String) : Option JVal :=
  match v with
  | .obj fs => dlookup fs k
  | _ => none

/-- The payment identifiers of a stored proposal, read off its
`payments` list. -/
def payment_ids (p : JVal) : List JVal :=
  match jfield p "payments" with
  | some (.arr xs) => xs.filterMap fun x => jfield x "payment_id"
  | _ => []

/-- Modelled from the spec's validation contract for Submit Proposal
Request: the configuration contains `user_id`, `risk_config`,
`risk_config.min_balance_usd`, `risk_config.transaction_limits.single`
and `risk_config.transaction_limits.daily`. -/
def config_complete_spec (cfg : Dict) : Bool :=
  dmem cfg "user_id" &&
  (match dlookup cfg "risk_config" with
   | some (.obj risk) =>
     dmem risk "min_balance_usd" &&
     (match dlookup risk "transaction_limits" with
      | some (.obj tx) => dmem tx "single" && dmem tx "daily"
      | _ => false)
   | _ => false)

/-- The store holds, under `pid`, a mapping carrying an attached
execution result. -/
def hasExecResult (store : Store) (pid : String) : Prop :=
  ∃ pf er, dlookup store pid = some (.obj pf) ∧ dlookup pf "execution_result" = some er

/-! ## Dictionary lemmas -/

theorem dlookup_dset_self (d : Dict) (k : String) (v : JVal) :
    dlookup (dset d k v) k = some v := by
  induction d with
  | nil => simp [dset, dlookup]
  | cons hd tl ih =>
    obtain ⟨k', v'⟩ := hd
    by_cases h : k' = k <;> simp [dset, dlookup, h, ih]

theorem dlookup_dset_ne (d : Dict) (k k' : String) (v : JVal) (h : k' ≠ k) :
    dlookup (dset d k v) k' = dlookup d k' := by
  induction d with
  | nil => simp [dset, dlookup, Ne.symm h]
  | cons hd tl ih =>
    obtain ⟨k0, v0⟩ := hd
    by_cases h0 : k0 = k
    · subst h0
      simp [dset, dlookup, Ne.symm h]
    · simp [dset, dlookup, h0, ih]

theorem dset_dset_same (d : Dict) (k : String) (v w : JVal) :
    dset (dset d k v) k w = dset d k w := by
  induction d with
  | nil => simp [dset]
  | cons hd tl ih =>
    obtain ⟨k0, v0⟩ := hd
    by_cases h0 : k0 = k <;> simp [dset, h0, ih]

theorem dmem_dset_self (d : Dict) (k : String) (v : JVal) :
    dmem (dset d k v) k = true := by
  simp [dmem, dlookup_dset_self]

/-! ## C3: approval validation order -/

/-- C3: Submit Approval validation fails with ValidationError at the first
violated check in the fixed order — (1) a missing required field, in the
order proposal_id, custody_wallet, private_key, approval_decision;
(2) an approval_decision outside {approve_all, reject_all, partial};
(3) partial with approved_payments absent or not a sequence — and the
error message identifies the first failing check; when every check
passes, validation succeeds. -/
theorem c3_validation_first_failure (data : Dict) :
    (dmem data "proposal_id" = false →
      validate_payment_approval data = .error "Missing required field: proposal_id") ∧
    (dmem data "proposal_id" = true → dmem data "custody_wallet" = false →
      validate_payment_approval data = .error "Missing required field: custody_wallet") ∧
    (dmem data "proposal_id" = true → dmem data "custody_wallet" = true →
      dmem data "private_key" = false →
      validate_payment_approval data = .error "Missing required field: private_key") ∧
    (dmem data "proposal_id" = true → dmem data "custody_wallet" = true →
      dmem data "private_key" = true → dmem data "approval_decision" = false →
      validate_payment_approval data = .error "Missing required field: approval_decision") ∧
    (dmem data "proposal_id" = true → dmem data "custody_wallet" = true →
      dmem data "private_key" = true → dmem data "approval_decision" = true →
      decisionIs data "approve_all" = false → decisionIs data "reject_all" = false →
      decisionIs data "partial" = false →
      validate_payment_approval data =
        .error "Invalid approval_decision. Must be one of: approve_all, reject_all, partial") ∧
    (dmem data "proposal_id" = true → dmem data "custody_wallet" = true →
      dmem data "private_key" = true → decisionIs data "partial" = true →
      dmem data "approved_payments" = false →
      validate_payment_approval data =
        .error "approved_payments is required for partial approval") ∧
    (∀ v, dmem data "proposal_id" = true → dmem data "custody_wallet" = true →
      dmem data "private_key" = true → decisionIs data "partial" = true →
      dlookup data "approved_payments" = some v → (∀ xs, v ≠ .arr xs) →
      validate_payment_approval data = .error "approved_payments must be an array") ∧
    (∀ xs, dmem data "proposal_id" = true → dmem data "custody_wallet" = true →
      dmem data "private_key" = true → decisionIs data "partial" = true →
      dlookup data "approved_payments" = some (.arr xs) →
      validate_payment_approval data = .ok ()) ∧
    (dmem data "proposal_id" = true → dmem data "custody_wallet" = true →
      dmem data "private_key" = true →
      (decisionIs data "approve_all" = true ∨ decisionIs data "reject_all" = true) →
      decisionIs data "partial" = false →
      validate_payment_approval data = .ok ()) := by
  have hmem : ∀ s, decisionIs data s = true → dmem data "approval_decision" = true := by
    intro s h
    unfold decisionIs at h
    unfold dmem
    cases hl : dlookup data "approval_decision" with
    | none => rw [hl] at h; simp at h
    | some v => simp
  refine ⟨?_, ?_, ?_, ?_, ?_, ?_, ?_, ?_, ?_⟩
  · intro h1; simp [validate_payment_approval, h1]
  · intro h1 h2; simp [validate_payment_approval, h1, h2]
  · intro h1 h2 h3; simp [validate_payment_approval, h1, h2, h3]
  · intro h1 h2 h3 h4; simp [validate_payment_approval, h1, h2, h3, h4]
  · intro h1 h2 h3 h4 h5 h6 h7
    simp [validate_payment_approval, h1, h2, h3, h4, h5, h6, h7]
  · intro h1 h2 h3 hp h5
    simp [validate_payment_approval, h1, h2, h3, hmem _ hp, hp, h5]
  · intro v h1 h2 h3 hp hv hna
    have hap : dmem data "approved_payments" = true := by simp [dmem, hv]
    simp only [validate_payment_approval, h1, h2, h3, hmem _ hp, hp, hv, hap]
    cases v <;> simp_all
  · intro xs h1 h2 h3 hp hv
    have hap : dmem data "approved_payments" = true := by simp [dmem, hv]
    simp [validate_payment_approval, h1, h2, h3, hmem _ hp, hp, hv, hap]
  · intro h1 h2 h3 hd hp
    rcases hd with hd | hd <;>
      simp [validate_payment_approval, h1, h2, h3, hmem _ hd, hp, hd]

/-- Witness for C3 at a concrete request: private_key is the first
missing required field and is the one reported. -/
theorem c3_witness :
    validate_payment_approval
      [("proposal_id", .str "p1"), ("custody_wallet", .str "0x123")] =
      .error "Missing required field: private_key" :=
  (c3_validation_first_failure _).2.2.1 (by rfl) (by rfl) (by rfl)

/-! ## C5: config validation completeness and additive schema -/

/-- C5: a configuration missing any of user_id, risk_config,
risk_config.min_balance_usd, risk_config.transaction_limits.single or
risk_config.transaction_limits.daily makes Submit Proposal Request fail
with a 400 ValidationError, leaving the store unchanged, with a response
independent of the generated identifier and of the proposal pipeline
(so no identifier is used and the pipeline is not invoked); a
configuration containing all required fields validates regardless of
extra fields, and is passed to the pipeline unchanged under `config`. -/
theorem c5_config_validation (parse : String → Option JVal) (cfg : Dict) :
    (validate_config cfg = .ok () ↔ config_complete_spec cfg = true) ∧
    (config_complete_spec cfg = false →
      ∀ store rf ee sf pid pid' fname fname' pipeF pipeF',
        (∃ m, submit_request parse store cfg rf ee sf pid fname pipeF = (.err m 400, store)) ∧
        submit_request parse store cfg rf ee sf pid fname pipeF =
          submit_request parse store cfg rf ee sf pid' fname' pipeF') ∧
    (∀ pid fname, dlookup (proposal_context pid cfg fname) "config" = some (.obj cfg)) := by
  have hiff : validate_config cfg = .ok () ↔ config_complete_spec cfg = true := by
    unfold validate_config config_complete_spec
    cases hu : dmem cfg "user_id"
    · simp [hu]
    · cases hr : dlookup cfg "risk_config" with
      | none =>
        have hm : dmem cfg "risk_config" = false := by simp [dmem, hr]
        simp [hu, hm, hr]
      | some v =>
        have hm : dmem cfg "risk_config" = true := by simp [dmem, hr]
        cases v with
        | obj risk =>
          simp only [hu, hm, hr, Bool.not_true, Bool.false_eq_true, if_false, Bool.true_and]
          cases hmb : dmem risk "min_balance_usd"
          · simp [hmb]
          · simp only [hmb, Bool.not_true, Bool.false_eq_true, if_false, Bool.true_and]
            cases ht : dlookup risk "transaction_limits" with
            | none => simp [ht]
            | some w =>
              cases w with
              | obj tx =>
                cases hs : dmem tx "single"
                · simp [ht, hs]
                · cases hd : dmem tx "daily" <;> simp [ht, hs, hd]
              | null => simp [ht]
              | bool b => simp [ht]
              | num n => simp [ht]
              | str s => simp [ht]
              | arr xs => simp [ht]
        | null => simp [hu, hm, hr]
        | bool b => simp [hu, hm, hr]
        | num n => simp [hu, hm, hr]
        | str s => simp [hu, hm, hr]
        | arr xs => simp [hu, hm, hr]
  refine ⟨hiff, ?_, ?_⟩
  · intro hinc store rf ee sf pid pid' fname fname' pipeF pipeF'
    cases hv : validate_config cfg with
    | ok u =>
      obtain ⟨⟩ := u
      rw [hiff.mp hv] at hinc
      cases hinc
    | error m =>
      exact ⟨⟨m, by simp [submit_request, hv]⟩, by simp [submit_request, hv]⟩
  · intro pid fname
    rfl

/-- Witness for C5: a config whose transaction_limits lacks `daily` is
rejected with a 400 error and the store stays empty. -/
theorem c5_witness :
    (∃ m, submit_request (fun _ => none) [] 
        [("user_id", .str "u1"),
         ("risk_config", .obj [("min_balance_usd", .num 1000),
                               ("transaction_limits", .obj [("single", .num 5000)])])]
        false false none "pid-1" "f.xlsx" (fun _ => .ok (.val .null)) = (.err m 400, [])) ∧
    submit_request (fun _ => none) []
        [("user_id", .str "u1"),
         ("risk_config", .obj [("min_balance_usd", .num 1000),
                               ("transaction_limits", .obj [("single", .num 5000)])])]
        false false none "pid-1" "f.xlsx" (fun _ => .ok (.val .null)) =
      submit_request (fun _ => none) []
        [("user_id", .str "u1"),
         ("risk_config", .obj [("min_balance_usd", .num 1000),
                               ("transaction_limits", .obj [("single", .num 5000)])])]
        false false none "pid-2" "g.xlsx" (fun _ => .ok (.val (.obj []))) :=
  (c5_config_validation (fun _ => none) _).2.1 (by rfl) [] false false none
    "pid-1" "pid-2" "f.xlsx" "g.xlsx" (fun _ => .ok (.val .null)) (fun _ => .ok (.val (.obj [])))

/-! ## C6: pipeline exceptions surface as ExecutionError, no state change -/

/-- C6: an exception from the Proposal Pipeline makes Submit Proposal
Request fail with a 500 `Crew error` and stores nothing; an exception
from the Execution Pipeline makes Submit Approval fail with a 500
`Payment execution failed` error, attaches nothing, and leaves the
Proposal retrievable unchanged. -/
theorem c6_pipeline_exception (parse : String → Option JVal) :
    (∀ store cfg pid fname pipeF e, validate_config cfg = .ok () →
      pipeF (proposal_context pid cfg fname) = .error e →
      submit_request parse store cfg false false none pid fname pipeF =
        (.err ("Crew error: " ++ e) 500, store)) ∧
    (∀ store data execF pid pd ctx e, validate_payment_approval data = .ok () →
      dlookup data "proposal_id" = some (.str pid) →
      dlookup store pid = some pd →
      approval_context data (.str pid) pd = some ctx →
      execF ctx = .error e →
      submit_payment_approval parse execF store data =
        (.err ("Payment execution failed: " ++ e) 500, store) ∧
      get_payment_proposal store pid = (.ok pd 200, store)) := by
  constructor
  · intro store cfg pid fname pipeF e hv hp
    simp [submit_request, hv, hp]
  · intro store data execF pid pd ctx e hv hpid hst hctx he
    constructor
    · simp [submit_payment_approval, hv, hpid, hst, hctx, he]
    · simp [get_payment_proposal, hst]

/-- Witness for C6: concrete failing pipelines on a stored one-payment
proposal leave the store unchanged and surface 500 errors. -/
theorem c6_witness :
    (submit_request (fun _ => none) [] [("user_id", .str "u1"),
        ("risk_config", .obj [("min_balance_usd", .num 1000),
          ("transaction_limits", .obj [("single", .num 5000), ("daily", .num 10000)])])]
      false false none "pid-1" "f.xlsx" (fun _ => .error "boom") =
      (.err ("Crew error: " ++ "boom") 500, [])) ∧
    (submit_payment_approval (fun _ => none) (fun _ => .error "transfer down")
        [("p1", .obj [("payments", .arr [])])]
        [("proposal_id", .str "p1"), ("custody_wallet", .str "0x1"),
         ("private_key", .str "k"), ("approval_decision", .str "approve_all")] =
      (.err ("Payment execution failed: " ++ "transfer down") 500,
       [("p1", .obj [("payments", .arr [])])])) := by
  constructor
  · exact (c6_pipeline_exception (fun _ => none)).1 [] _ "pid-1" "f.xlsx" _ "boom"
      (by rfl) (by rfl)
  · exact ((c6_pipeline_exception (fun _ => none)).2 _ _ _ "p1" (.obj [("payments", .arr [])])
      _ "transfer down" (by rfl) (by rfl) (by rfl) (by rfl) (by rfl)).1

/-! ## C8: three-shape normalization with fixed precedence -/

/-- C8: both operations normalize the pipeline output with the fixed
precedence — a raw-string wrapper is parsed from its raw string, a plain
string is parsed as JSON, a mapping passes through unchanged — and on an
unparseable string the proposal path falls back to
`{"raw": <raw>}` while the approval path falls back to
`{"execution_status": "FAILURE", "message": <raw>}`; the stored proposal
and the attached execution result are exactly these normalized values. -/
theorem c8_normalization (parse : String → Option JVal) :
    (∀ raw v, parse raw = some v →
      normalize_proposal_result parse (.wrapper raw) = v) ∧
    (∀ raw, parse raw = none →
      normalize_proposal_result parse (.wrapper raw) = .obj [("raw", .str raw)]) ∧
    (∀ s v, parse s = some v → normalize_proposal_result parse (.str s) = v) ∧
    (∀ s, parse s = none →
      normalize_proposal_result parse (.str s) = .obj [("raw", .str s)]) ∧
    (∀ d, normalize_proposal_result parse (.val (.obj d)) = .obj d) ∧
    (∀ raw v, parse raw = some v →
      normalize_execution_result parse (.wrapper raw) = v) ∧
    (∀ raw, parse raw = none →
      normalize_execution_result parse (.wrapper raw) =
        .obj [("execution_status", .str "FAILURE"), ("message", .str raw)]) ∧
    (∀ s v, parse s = some v → normalize_execution_result parse (.str s) = v) ∧
    (∀ s, parse s = none →
      normalize_execution_result parse (.str s) =
        .obj [("execution_status", .str "FAILURE"), ("message", .str s)]) ∧
    (∀ d, normalize_execution_result parse (.val (.obj d)) = .obj d) ∧
    (∀ store cfg pid fname out, validate_config cfg = .ok () →
      dlookup (submit_request parse store cfg false false none pid fname
        (fun _ => .ok out)).2 pid = some (normalize_proposal_result parse out)) ∧
    (∀ store data pid pf ctx out erf, validate_payment_approval data = .ok () →
      dlookup data "proposal_id" = some (.str pid) →
      dlookup store pid = some (.obj pf) →
      approval_context data (.str pid) (.obj pf) = some ctx →
      normalize_execution_result parse out = .obj erf →
      dlookup (submit_payment_approval parse (fun _ => .ok out) store data).2 pid =
        some (.obj (dset pf "execution_result" (.obj erf)))) := by
  refine ⟨?_, ?_, ?_, ?_, ?_, ?_, ?_, ?_, ?_, ?_, ?_, ?_⟩
  · intro raw v h; simp [normalize_proposal_result, h]
  · intro raw h; simp [normalize_proposal_result, h]
  · intro s v h; simp [normalize_proposal_result, h]
  · intro s h; simp [normalize_proposal_result, h]
  · intro d; rfl
  · intro raw v h; simp [normalize_execution_result, h]
  · intro raw h; simp [normalize_execution_result, h]
  · intro s v h; simp [normalize_execution_result, h]
  · intro s h; simp [normalize_execution_result, h]
  · intro d; rfl
  · intro store cfg pid fname out hv
    simp [submit_request, hv, dlookup_dset_self]
  · intro store data pid pf ctx out erf hv hpid hst hctx hn
    simp [submit_payment_approval, hv, hpid, hst, hctx, hn, dlookup_dset_self]

/-- Witness for C8: with a parse function defined only at the string
`ok`, the wrapper and string shapes parse or fall back as stated, and a
mapping passes through. -/
theorem c8_witness :
    normalize_proposal_result
        (fun s => if s = "ok" then some (.obj [("report", .str "r")]) else none)
        (.wrapper "ok") = .obj [("report", .str "r")] ∧
    normalize_proposal_result
        (fun s => if s = "ok" then some (.obj [("report", .str "r")]) else none)
        (.str "bad") = .obj [("raw", .str "bad")] ∧
    normalize_execution_result
        (fun s => if s = "ok" then some (.obj [("report", .str "r")]) else none)
        (.str "bad") =
      .obj [("execution_status", .str "FAILURE"), ("message", .str "bad")] := by
  refine ⟨?_, ?_, ?_⟩
  · exact (c8_normalization _).1 "ok" _ (by rfl)
  · exact (c8_normalization _).2.2.2.1 "bad" (by rfl)
  · exact (c8_normalization _).2.2.2.2.2.2.2.2.1 "bad" (by rfl)

/-! ## C10: defaults in the execution context -/

/-- C10: for a valid approval request without `approved_payments`, the
execution context carries `approved_payments` as the empty list, and
`comments` as the empty string when absent; the stored Proposal rides
along under `proposal_data` and the decision string is forwarded
unchanged. -/
theorem c10_context_defaults (data : Dict) (pidv pd : JVal) (ctx : Dict) :
    validate_payment_approval data = .ok () →
    approval_context data pidv pd = some ctx →
    dmem data "approved_payments" = false →
    dmem data "comments" = false →
    dlookup ctx "approved_payments" = some (.arr []) ∧
    dlookup ctx "comments" = some (.str "") ∧
    dlookup ctx "proposal_data" = some pd ∧
    dlookup ctx "proposal_id" = some pidv ∧
    dlookup ctx "approval_decision" = dlookup data "approval_decision" := by
  intro _ hctx hap hcm
  have hap' : dlookup data "approved_payments" = none := by
    cases h : dlookup data "approved_payments" with
    | none => rfl
    | some v => rw [dmem, h] at hap; cases hap
  have hcm' : dlookup data "comments" = none := by
    cases h : dlookup data "comments" with
    | none => rfl
    | some v => rw [dmem, h] at hcm; cases hcm
  unfold approval_context at hctx
  cases hcw : dlookup data "custody_wallet" with
  | none => rw [hcw] at hctx; cases hctx
  | some cw =>
    cases hpk : dlookup data "private_key" with
    | none => rw [hcw, hpk] at hctx; cases hctx
    | some pk =>
      cases had : dlookup data "approval_decision" with
      | none => rw [hcw, hpk, had] at hctx; cases hctx
      | some ad =>
        rw [hcw, hpk, had] at hctx
        injection hctx with hctx'
        subst hctx'
        simp [dlookup, hap', hcm', had]

/-- Witness for C10: a concrete reject_all request with neither
`approved_payments` nor `comments` yields the defaulted context. -/
theorem c10_witness :
    dlookup [("proposal_id", JVal.str "p1"),
             ("proposal_data", .obj [("payments", .arr [])]),
             ("custody_wallet", .str "0x1"),
             ("private_key", .str "k"),
             ("approval_decision", .str "reject_all"),
             ("approved_payments", .arr []),
             ("comments", .str "")] "approved_payments" = some (.arr []) ∧
    dlookup [("proposal_id", JVal.str "p1"),
             ("proposal_data", .obj [("payments", .arr [])]),
             ("custody_wallet", .str "0x1"),
             ("private_key", .str "k"),
             ("approval_decision", .str "reject_all"),
             ("approved_payments", .arr []),
             ("comments", .str "")] "comments" = some (.str "") :=
  ⟨((c10_context_defaults
      [("proposal_id", .str "p1"), ("custody_wallet", .str "0x1"),
       ("private_key", .str "k"), ("approval_decision", .str "reject_all")]
      (.str "p1") (.obj [("payments", .arr [])]) _
      (by rfl) (by rfl) (by rfl) (by rfl)).1),
   ((c10_context_defaults
      [("proposal_id", .str "p1"), ("custody_wallet", .str "0x1"),
       ("private_key", .str "k"), ("approval_decision", .str "reject_all")]
      (.str "p1") (.obj [("payments", .arr [])]) _
      (by rfl) (by rfl) (by rfl) (by rfl)).2.1)⟩

/-! ## C2: approval reconciliation (corrected: no decision-dependent
reconciliation happens; the caller-supplied list is passed through for
every decision) -/

/-- C2 (amended): for every decision — approve_all, reject_all and
partial alike — the execution context carries `approved_payments` equal
to the caller-supplied list, defaulting to the empty list when absent;
in particular a partial decision passes the caller's list through
unmodified and without subset validation, and the decision string is
forwarded unchanged.  The stored Proposal's payment identifiers are
never substituted in. -/
theorem c2_approved_passthrough (data : Dict) (pidv pd : JVal) (ctx : Dict) :
    approval_context data pidv pd = some ctx →
    dlookup ctx "approved_payments" =
      some ((dlookup data "approved_payments").getD (.arr [])) ∧
    (∀ ap, dlookup data "approved_payments" = some ap →
      dlookup ctx "approved_payments" = some ap) ∧
    dlookup ctx "approval_decision" = dlookup data "approval_decision" := by
  intro hctx
  unfold approval_context at hctx
  cases hcw : dlookup data "custody_wallet" with
  | none => rw [hcw] at hctx; cases hctx
  | some cw =>
    cases hpk : dlookup data "private_key" with
    | none => rw [hcw, hpk] at hctx; cases hctx
    | some pk =>
      cases had : dlookup data "approval_decision" with
      | none => rw [hcw, hpk, had] at hctx; cases hctx
      | some ad =>
        rw [hcw, hpk, had] at hctx
        injection hctx with hctx'
        subst hctx'
        refine ⟨by simp [dlookup], ?_, by simp [dlookup, had]⟩
        intro ap hap
        simp [dlookup, hap]

/-- Witness for C2 (amended): a partial request's caller list rides
through unmodified even though `missing-id` is no payment of the
proposal. -/
theorem c2_witness :
    dlookup [("proposal_id", JVal.str "p1"),
             ("proposal_data", .obj [("payments", .arr [])]),
             ("custody_wallet", .str "0x1"),
             ("private_key", .str "k"),
             ("approval_decision", .str "partial"),
             ("approved_payments", .arr [.str "missing-id"]),
             ("comments", .str "")] "approved_payments" =
      some (.arr [.str "missing-id"]) :=
  (c2_approved_passthrough
      [("proposal_id", .str "p1"), ("custody_wallet", .str "0x1"),
       ("private_key", .str "k"), ("approval_decision", .str "partial"),
       ("approved_payments", .arr [.str "missing-id"])]
      (.str "p1") (.obj [("payments", .arr [])]) _ (by rfl)).2.1
    (.arr [.str "missing-id"]) (by rfl)

/-- Counterexample for C2 as stated: an approve_all request with no
caller-supplied list produces an execution context whose approved set is
the empty list, not the stored Proposal's payment identifiers; an
echoing Execution Pipeline confirms it was invoked with the empty set. -/
theorem c2_counterexample :
    approval_context
        [("proposal_id", .str "p1"), ("custody_wallet", .str "0x1"),
         ("private_key", .str "k"), ("approval_decision", .str "approve_all")]
        (.str "p1")
        (.obj [("payments", .arr [.obj [("payment_id", .str "pay-1"),
          ("recipient_wallet", .str "0x456"), ("amount", .num 100),
          ("reference", .str "T1")]])]) =
      some [("proposal_id", .str "p1"),
            ("proposal_data", .obj [("payments", .arr [.obj [("payment_id", .str "pay-1"),
              ("recipient_wallet", .str "0x456"), ("amount", .num 100),
              ("reference", .str "T1")]])]),
            ("custody_wallet", .str "0x1"),
            ("private_key", .str "k"),
            ("approval_decision", .str "approve_all"),
            ("approved_payments", .arr []),
            ("comments", .str "")] ∧
    payment_ids (.obj [("payments", .arr [.obj [("payment_id", .str "pay-1"),
        ("recipient_wallet", .str "0x456"), ("amount", .num 100),
        ("reference", .str "T1")]])]) = [.str "pay-1"] ∧
    JVal.arr [] ≠ JVal.arr [.str "pay-1"] ∧
    (submit_payment_approval (fun _ => none)
        (fun c => .ok (.val (.obj [("execution_status", .str "SUCCESS"),
          ("ctx_approved", (dlookup c "approved_payments").getD .null)])))
        [("p1", .obj [("payments", .arr [.obj [("payment_id", .str "pay-1"),
          ("recipient_wallet", .str "0x456"), ("amount", .num 100),
          ("reference", .str "T1")]])])]
        [("proposal_id", .str "p1"), ("custody_wallet", .str "0x1"),
         ("private_key", .str "k"), ("approval_decision", .str "approve_all")]).2 =
      [("p1", .obj [("payments", .arr [.obj [("payment_id", .str "pay-1"),
        ("recipient_wallet", .str "0x456"), ("amount", .num 100),
        ("reference", .str "T1")]]),
        ("execution_result", .obj [("execution_status", .str "SUCCESS"),
          ("ctx_approved", .arr [])])])] := by
  refine ⟨rfl, rfl, ?_, rfl⟩
  intro h
  injection h with h'
  cases h'

/-! ## C4: unknown proposal id (corrected: validation runs first) -/

/-- C4 (amended): for every Submit Approval request that passes the
validation contract and whose proposal_id does not resolve to a stored
Proposal, the operation fails with the 404 `Proposal not found` error,
the store is unchanged, and the Execution Pipeline is not invoked (the
outcome is independent of the pipeline). -/
theorem c4_unknown_proposal (parse : String → Option JVal)
    (execF execF' : Dict → Except String PipeOut) (store : Store)
    (data : Dict) (pid : String) :
    validate_payment_approval data = .ok () →
    dlookup data "proposal_id" = some (.str pid) →
    dlookup store pid = none →
    submit_payment_approval parse execF store data =
      (.err "Proposal not found" 404, store) ∧
    submit_payment_approval parse execF store data =
      submit_payment_approval parse execF' store data := by
  intro hv hpid hst
  constructor <;> simp [submit_payment_approval, hv, hpid, hst]

/-- Witness for C4 (amended): a fully valid approve_all request for the
unknown identifier `ghost` against an empty store yields 404. -/
theorem c4_witness :
    submit_payment_approval (fun _ => none) (fun _ => .ok (.val .null)) []
      [("proposal_id", .str "ghost"), ("custody_wallet", .str "0x123"),
       ("private_key", .str "k"), ("approval_decision", .str "approve_all")] =
      (.err "Proposal not found" 404, []) :=
  (c4_unknown_proposal (fun _ => none) (fun _ => .ok (.val .null))
    (fun _ => .ok (.val .null)) []
    [("proposal_id", .str "ghost"), ("custody_wallet", .str "0x123"),
     ("private_key", .str "k"), ("approval_decision", .str "approve_all")]
    "ghost" (by rfl) (by rfl) (by rfl)).1

/-- Counterexample for C4 as stated: a request for the unknown id
`ghost` whose approval_decision is invalid fails with the 400
ValidationError, not with the 404 NotFoundError — validation is checked
before existence, so "regardless of validity" is false. -/
theorem c4_counterexample :
    (submit_payment_approval (fun _ => none) (fun _ => .ok (.val .null)) []
      [("proposal_id", .str "ghost"), ("custody_wallet", .str "0x123"),
       ("private_key", .str "k"), ("approval_decision", .str "bogus")]).1 =
      .err "Invalid approval_decision. Must be one of: approve_all, reject_all, partial" 400 ∧
    Resp.err "Invalid approval_decision. Must be one of: approve_all, reject_all, partial" 400 ≠
      Resp.err "Proposal not found" 404 := by
  refine ⟨rfl, ?_⟩
  intro h
  injection h with h1 h2
  cases h2

/-! ## Frame machinery: how each operation can change the store -/

/-- Retrieving a proposal never changes the store. -/
theorem get_payment_proposal_store (store : Store) (pid : String) :
    (get_payment_proposal store pid).2 = store := by
  unfold get_payment_proposal
  cases dlookup store pid <;> rfl

/-- Retrieving an execution result never changes the store. -/
theorem get_payment_execution_result_store (store : Store) (pid : String) :
    (get_payment_execution_result store pid).2 = store := by
  cases hpd : dlookup store pid with
  | none => simp [get_payment_execution_result, hpd]
  | some pd =>
    cases hm : jmem "execution_result" pd with
    | error e => simp [get_payment_execution_result, hpd, hm]
    | ok b =>
      cases b with
      | false => simp [get_payment_execution_result, hpd, hm]
      | true =>
        cases hj : jindex pd "execution_result" with
        | ok er => simp [get_payment_execution_result, hpd, hm, hj]
        | error e => simp [get_payment_execution_result, hpd, hm, hj]

/-- Submit Proposal Request either leaves the store unchanged or writes
one value under the freshly generated identifier. -/
theorem submit_request_store_cases (parse : String → Option JVal) (store : Store)
    (cfg : Dict) (rf ee : Bool) (sf : Option String) (pid fname : String)
    (pipeF : Dict → Except String PipeOut) :
    (submit_request parse store cfg rf ee sf pid fname pipeF).2 = store ∨
    ∃ v, (submit_request parse store cfg rf ee sf pid fname pipeF).2 = dset store pid v := by
  cases hv : validate_config cfg with
  | error m => left; simp [submit_request, hv]
  | ok u =>
    obtain ⟨⟩ := u
    cases rf with
    | true => left; simp [submit_request, hv]
    | false =>
      cases ee with
      | true => left; simp [submit_request, hv]
      | false =>
        cases sf with
        | some e => left; simp [submit_request, hv]
        | none =>
          cases hp : pipeF (proposal_context pid cfg fname) with
          | error e => left; simp [submit_request, hv, hp]
          | ok out =>
            right
            exact ⟨normalize_proposal_result parse out, by simp [submit_request, hv, hp]⟩

/-- Submit Approval either leaves the store unchanged or overwrites the
`execution_result` field of the one stored Proposal it addresses. -/
theorem submit_approval_store_cases (parse : String → Option JVal)
    (execF : Dict → Except String PipeOut) (store : Store) (data : Dict) :
    (submit_payment_approval parse execF store data).2 = store ∨
    ∃ pid pf er, dlookup data "proposal_id" = some (.str pid) ∧
      dlookup store pid = some (.obj pf) ∧
      (submit_payment_approval parse execF store data).2 =
        dset store pid (.obj (dset pf "execution_result" er)) := by
  cases hv : validate_payment_approval data with
  | error m => left; simp [submit_payment_approval, hv]
  | ok u =>
    obtain ⟨⟩ := u
    cases hpid : dlookup data "proposal_id" with
    | none => left; simp [submit_payment_approval, hv, hpid]
    | some v =>
      cases v with
      | null => left; simp [submit_payment_approval, hv, hpid]
      | bool b => left; simp [submit_payment_approval, hv, hpid]
      | num n => left; simp [submit_payment_approval, hv, hpid]
      | arr xs => left; simp [submit_payment_approval, hv, hpid]
      | obj fs => left; simp [submit_payment_approval, hv, hpid]
      | str pid =>
        cases hst : dlookup store pid with
        | none => left; simp [submit_payment_approval, hv, hpid, hst]
        | some pd =>
          cases hctx : approval_context data (.str pid) pd with
          | none => left; simp [submit_payment_approval, hv, hpid, hst, hctx]
          | some ctx =>
            cases hex : execF ctx with
            | error e => left; simp [submit_payment_approval, hv, hpid, hst, hctx, hex]
            | ok out =>
              cases hn : normalize_execution_result parse out with
              | null => left; simp [submit_payment_approval, hv, hpid, hst, hctx, hex, hn]
              | bool b => left; simp [submit_payment_approval, hv, hpid, hst, hctx, hex, hn]
              | num n => left; simp [submit_payment_approval, hv, hpid, hst, hctx, hex, hn]
              | str s => left; simp [submit_payment_approval, hv, hpid, hst, hctx, hex, hn]
              | arr xs => left; simp [submit_payment_approval, hv, hpid, hst, hctx, hex, hn]
              | obj erf =>
                cases pd with
                | obj pf =>
                  right
                  refine ⟨pid, pf, .obj erf, rfl, ?_, ?_⟩
                  · exact hst
                  · simp [submit_payment_approval, hv, hpid, hst, hctx, hex, hn]
                | null => left; simp [submit_payment_approval, hv, hpid, hst, hctx, hex, hn]
                | bool b => left; simp [submit_payment_approval, hv, hpid, hst, hctx, hex, hn]
                | num n => left; simp [submit_payment_approval, hv, hpid, hst, hctx, hex, hn]
                | str s => left; simp [submit_payment_approval, hv, hpid, hst, hctx, hex, hn]
                | arr xs => left; simp [submit_payment_approval, hv, hpid, hst, hctx, hex, hn]

/-- How a stored Proposal can change across operations: not at all, or by
attaching/overwriting its `execution_result` field. -/
def proposalEvolves (p q : JVal) : Prop :=
  q = p ∨ ∃ pf er, p = .obj pf ∧ q = .obj (dset pf "execution_result" er)

theorem proposalEvolves_trans {p q r : JVal} :
    proposalEvolves p q → proposalEvolves q r → proposalEvolves p r := by
  rintro (rfl | ⟨pf, er, rfl, rfl⟩) h2
  · exact h2
  · rcases h2 with rfl | ⟨qf, er', hq, rfl⟩
    · exact Or.inr ⟨pf, er, rfl, rfl⟩
    · injection hq with hq'
      subst hq'
      exact Or.inr ⟨pf, er', rfl, by rw [dset_dset_same]⟩

theorem proposalEvolves_jfield {p q : JVal} (h : proposalEvolves p q)
    (k : String) (hk : k ≠ "execution_result") : jfield q k = jfield p k := by
  rcases h with rfl | ⟨pf, er, rfl, rfl⟩
  · rfl
  · simp [jfield, dlookup_dset_ne _ _ _ _ hk]

/-- One operation with a fresh submission identifier keeps every stored
Proposal in place, changed at most by an `execution_result` attachment. -/
theorem opStep_frame (parse : String → Option JVal) (store : Store) (op : Op)
    (pid : String) (p : JVal) :
    freshOp store op = true → dlookup store pid = some p →
    ∃ q, dlookup (opStep parse store op).2 pid = some q ∧ proposalEvolves p q := by
  intro hf hp
  cases op with
  | subReq cfg rf ee sf pid' fname pipeF =>
    have hfresh : dlookup store pid' = none := by
      simp [freshOp, dmem] at hf
      exact Option.not_isSome_iff_eq_none.mp (by simp [hf])
    have hne : pid ≠ pid' := by
      intro h
      rw [h, hfresh] at hp
      cases hp
    rcases submit_request_store_cases parse store cfg rf ee sf pid' fname pipeF with h | ⟨v, h⟩
    · exact ⟨p, by simp [opStep, h, hp], Or.inl rfl⟩
    · refine ⟨p, ?_, Or.inl rfl⟩
      simp only [opStep, h]
      rw [dlookup_dset_ne _ _ _ _ hne]
      exact hp
  | getProp pid' =>
    exact ⟨p, by simp [opStep, get_payment_proposal_store, hp], Or.inl rfl⟩
  | getExec pid' =>
    exact ⟨p, by simp [opStep, get_payment_execution_result_store, hp], Or.inl rfl⟩
  | subAppr data execF =>
    rcases submit_approval_store_cases parse execF store data with h | ⟨pid0, pf, er, _, hst, h⟩
    · exact ⟨p, by simp [opStep, h, hp], Or.inl rfl⟩
    · by_cases hpe : pid = pid0
      · subst hpe
        rw [hp] at hst
        injection hst with hst'
        refine ⟨.obj (dset pf "execution_result" er), ?_, ?_⟩
        · simp only [opStep, h]
          exact dlookup_dset_self _ _ _
        · exact Or.inr ⟨pf, er, hst', rfl⟩
      · refine ⟨p, ?_, Or.inl rfl⟩
        simp only [opStep, h]
        rw [dlookup_dset_ne _ _ _ _ hpe]
        exact hp

/-- Frame property over a whole sequence of operations. -/
theorem opRun_frame (parse : String → Option JVal) (ops : List Op) :
    ∀ store pid p, freshRun parse store ops = true → dlookup store pid = some p →
    ∃ q, dlookup (opRun parse store ops) pid = some q ∧ proposalEvolves p q := by
  induction ops with
  | nil => exact fun store pid p _ hp => ⟨p, hp, Or.inl rfl⟩
  | cons op ops ih =>
    intro store pid p hfr hp
    rw [freshRun, Bool.and_eq_true] at hfr
    obtain ⟨h1, h2⟩ := hfr
    obtain ⟨q, hq, he⟩ := opStep_frame parse store op pid p h1 hp
    obtain ⟨r, hr, he2⟩ := ih _ pid q h2 hq
    exact ⟨r, hr, proposalEvolves_trans he he2⟩

/-! ## C1: Proposal immutability across operation sequences -/

/-- C1: a stored Proposal survives every sequence of operations (with
fresh submission identifiers, as uuid4 guarantees) changed at most by an
attached/overwritten `execution_result` field; its payment list and every
other field are unchanged, and Retrieve Proposal returns exactly the
stored value. -/
theorem c1_proposal_immutable (parse : String → Option JVal) (store : Store)
    (ops : List Op) (pid : String) (p : JVal) :
    freshRun parse store ops = true →
    dlookup store pid = some p →
    ∃ q, dlookup (opRun parse store ops) pid = some q ∧
      proposalEvolves p q ∧
      jfield q "payments" = jfield p "payments" ∧
      (∀ k, k ≠ "execution_result" → jfield q k = jfield p k) ∧
      get_payment_proposal (opRun parse store ops) pid =
        (.ok q 200, opRun parse store ops) := by
  intro hfr hp
  obtain ⟨q, hq, he⟩ := opRun_frame parse ops store pid p hfr hp
  refine ⟨q, hq, he, ?_, ?_, ?_⟩
  · exact proposalEvolves_jfield he "payments" (by decide)
  · exact fun k hk => proposalEvolves_jfield he k hk
  · simp [get_payment_proposal, hq]

/-- Witness for C1: a stored one-payment Proposal, hit by a successful
approve_all and a retrieval, keeps its payment list. -/
theorem c1_witness :
    freshRun (fun _ => none)
        [("p1", .obj [("report", .str "r"),
           ("payments", .arr [.obj [("payment_id", .str "pay-1")]])])]
        [Op.subAppr
           [("proposal_id", .str "p1"), ("custody_wallet", .str "0x1"),
            ("private_key", .str "k"), ("approval_decision", .str "approve_all")]
           (fun _ => .ok (.val (.obj [("execution_status", .str "SUCCESS")]))),
         Op.getProp "p1"] = true ∧
    ∃ q, dlookup (opRun (fun _ => none)
        [("p1", .obj [("report", .str "r"),
           ("payments", .arr [.obj [("payment_id", .str "pay-1")]])])]
        [Op.subAppr
           [("proposal_id", .str "p1"), ("custody_wallet", .str "0x1"),
            ("private_key", .str "k"), ("approval_decision", .str "approve_all")]
           (fun _ => .ok (.val (.obj [("execution_status", .str "SUCCESS")]))),
         Op.getProp "p1"]) "p1" = some q ∧
      proposalEvolves (.obj [("report", .str "r"),
        ("payments", .arr [.obj [("payment_id", .str "pay-1")]])]) q ∧
      jfield q "payments" = jfield (.obj [("report", .str "r"),
        ("payments", .arr [.obj [("payment_id", .str "pay-1")]])]) "payments" ∧
      (∀ k, k ≠ "execution_result" → jfield q k = jfield (.obj [("report", .str "r"),
        ("payments", .arr [.obj [("payment_id", .str "pay-1")]])]) k) ∧
      get_payment_proposal (opRun (fun _ => none)
        [("p1", .obj [("report", .str "r"),
           ("payments", .arr [.obj [("payment_id", .str "pay-1")]])])]
        [Op.subAppr
           [("proposal_id", .str "p1"), ("custody_wallet", .str "0x1"),
            ("private_key", .str "k"), ("approval_decision", .str "approve_all")]
           (fun _ => .ok (.val (.obj [("execution_status", .str "SUCCESS")]))),
         Op.getProp "p1"]) "p1" =
        (.ok q 200, opRun (fun _ => none)
          [("p1", .obj [("report", .str "r"),
             ("payments", .arr [.obj [("payment_id", .str "pay-1")]])])]
          [Op.subAppr
             [("proposal_id", .str "p1"), ("custody_wallet", .str "0x1"),
              ("private_key", .str "k"), ("approval_decision", .str "approve_all")]
             (fun _ => .ok (.val (.obj [("execution_status", .str "SUCCESS")]))),
           Op.getProp "p1"]) :=
  ⟨rfl, c1_proposal_immutable (fun _ => none) _ _ "p1" _ rfl rfl⟩

/-! ## C7: execution-result visibility ordering -/

/-- Once present, an attached execution result survives every further
operation sequence (with fresh submission identifiers). -/
theorem hasExecResult_preserved (parse : String → Option JVal) (store : Store)
    (ops : List Op) (pid : String) :
    freshRun parse store ops = true → hasExecResult store pid →
    hasExecResult (opRun parse store ops) pid := by
  rintro hfr ⟨pf, er, hst, her⟩
  obtain ⟨q, hq, he⟩ := opRun_frame parse ops store pid _ hfr hst
  rcases he with rfl | ⟨pf', er', hpe, rfl⟩
  · exact ⟨pf, er, hq, her⟩
  · injection hpe with h'
    subst h'
    exact ⟨dset pf "execution_result" er', er', hq, dlookup_dset_self _ _ _⟩

/-- Retrieval succeeds with the attached result whenever one is present. -/
theorem getExec_success (store : Store) (pid : String) :
    hasExecResult store pid →
    ∃ er, get_payment_execution_result store pid = (.ok er 200, store) := by
  rintro ⟨pf, er, hst, her⟩
  have hm : jmem "execution_result" (.obj pf) = .ok true := by
    simp [jmem, dmem, her]
  have hj : jindex (.obj pf) "execution_result" = .ok er := by
    simp [jindex, her]
  exact ⟨er, by simp [get_payment_execution_result, hst, hm, hj]⟩

/-- A Submit Approval that returns a success response necessarily took the
attach branch: it overwrote `execution_result` of the addressed Proposal. -/
theorem submit_approval_ok_inv (parse : String → Option JVal)
    (execF : Dict → Except String PipeOut) (store : Store) (data : Dict)
    (b : JVal) (c : Nat) (s' : Store) :
    submit_payment_approval parse execF store data = (.ok b c, s') →
    ∃ pid pf er, dlookup data "proposal_id" = some (.str pid) ∧
      dlookup store pid = some (.obj pf) ∧
      s' = dset store pid (.obj (dset pf "execution_result" er)) := by
  intro h
  cases hv : validate_payment_approval data with
  | error m => simp [submit_payment_approval, hv] at h
  | ok u =>
    obtain ⟨⟩ := u
    cases hpid : dlookup data "proposal_id" with
    | none => simp [submit_payment_approval, hv, hpid] at h
    | some v =>
      cases v with
      | null => simp [submit_payment_approval, hv, hpid] at h
      | bool b0 => simp [submit_payment_approval, hv, hpid] at h
      | num n => simp [submit_payment_approval, hv, hpid] at h
      | arr xs => simp [submit_payment_approval, hv, hpid] at h
      | obj fs => simp [submit_payment_approval, hv, hpid] at h
      | str pid =>
        cases hst : dlookup store pid with
        | none => simp [submit_payment_approval, hv, hpid, hst] at h
        | some pd =>
          cases hctx : approval_context data (.str pid) pd with
          | none => simp [submit_payment_approval, hv, hpid, hst, hctx] at h
          | some ctx =>
            cases hex : execF ctx with
            | error e => simp [submit_payment_approval, hv, hpid, hst, hctx, hex] at h
            | ok out =>
              cases hn : normalize_execution_result parse out with
              | null => simp [submit_payment_approval, hv, hpid, hst, hctx, hex, hn] at h
              | bool b0 => simp [submit_payment_approval, hv, hpid, hst, hctx, hex, hn] at h
              | num n => simp [submit_payment_approval, hv, hpid, hst, hctx, hex, hn] at h
              | str s => simp [submit_payment_approval, hv, hpid, hst, hctx, hex, hn] at h
              | arr xs => simp [submit_payment_approval, hv, hpid, hst, hctx, hex, hn] at h
              | obj erf =>
                cases pd with
                | null => simp [submit_payment_approval, hv, hpid, hst, hctx, hex, hn] at h
                | bool b0 => simp [submit_payment_approval, hv, hpid, hst, hctx, hex, hn] at h
                | num n => simp [submit_payment_approval, hv, hpid, hst, hctx, hex, hn] at h
                | str s => simp [submit_payment_approval, hv, hpid, hst, hctx, hex, hn] at h
                | arr xs => simp [submit_payment_approval, hv, hpid, hst, hctx, hex, hn] at h
                | obj pf =>
                  simp only [submit_payment_approval, hv, hpid, hst, hctx, hex, hn,
                    Prod.mk.injEq] at h
                  refine ⟨pid, pf, .obj erf, rfl, hst, ?_⟩
                  exact h.2.symm

/-- C7: Retrieve Execution Result yields the 404 not-found signal both
when the Proposal is unknown and when it is stored without an attached
ExecutionResult (same status code, so the same signal); a successful
Submit Approval attaches a result to its Proposal, and in every state
reached afterwards (through fresh-identifier operation sequences) the
retrieval succeeds with the attached result. -/
theorem c7_result_visibility (parse : String → Option JVal) (store : Store)
    (pid : String) :
    (dlookup store pid = none →
      get_payment_execution_result store pid = (.err "Proposal not found" 404, store)) ∧
    (∀ pf, dlookup store pid = some (.obj pf) → dlookup pf "execution_result" = none →
      get_payment_execution_result store pid =
        (.err "No execution result found for this proposal" 404, store)) ∧
    (∀ data execF b s', submit_payment_approval parse execF store data = (.ok b 200, s') →
      ∀ pid', dlookup data "proposal_id" = some (.str pid') → hasExecResult s' pid') ∧
    (∀ ops, hasExecResult store pid → freshRun parse store ops = true →
      ∃ er, get_payment_execution_result (opRun parse store ops) pid =
        (.ok er 200, opRun parse store ops)) := by
  refine ⟨?_, ?_, ?_, ?_⟩
  · intro h
    simp [get_payment_execution_result, h]
  · intro pf hst her
    have hm : jmem "execution_result" (.obj pf) = .ok false := by
      simp [jmem, dmem, her]
    simp [get_payment_execution_result, hst, hm]
  · intro data execF b s' h pid' hpid'
    obtain ⟨pid0, pf, er, hpid, hst, hs⟩ :=
      submit_approval_ok_inv parse execF store data b 200 s' h
    rw [hpid'] at hpid
    injection hpid with hpid
    injection hpid with hpid
    subst hpid
    subst hs
    exact ⟨dset pf "execution_result" er, er, dlookup_dset_self _ _ _,
      dlookup_dset_self _ _ _⟩
  · intro ops hhas hfr
    exact getExec_success _ pid (hasExecResult_preserved parse store ops pid hfr hhas)

/-- Witness for C7: an unknown id and a result-less Proposal both give
404; after a successful approval the attached result is retrievable. -/
theorem c7_witness :
    get_payment_execution_result [("p1", .obj [("payments", .arr [])])] "ghost" =
      (.err "Proposal not found" 404, [("p1", .obj [("payments", .arr [])])]) ∧
    get_payment_execution_result [("p1", .obj [("payments", .arr [])])] "p1" =
      (.err "No execution result found for this proposal" 404,
       [("p1", .obj [("payments", .arr [])])]) ∧
    (∃ er, get_payment_execution_result
        (opRun (fun _ => none)
          [("p1", .obj [("payments", .arr []),
            ("execution_result", .obj [("execution_status", .str "SUCCESS")])])]
          [Op.getProp "p1"]) "p1" =
      (.ok er 200, opRun (fun _ => none)
          [("p1", .obj [("payments", .arr []),
            ("execution_result", .obj [("execution_status", .str "SUCCESS")])])]
          [Op.getProp "p1"])) :=
  ⟨(c7_result_visibility (fun _ => none) [("p1", .obj [("payments", .arr [])])] "ghost").1
      (by rfl),
   (c7_result_visibility (fun _ => none) [("p1", .obj [("payments", .arr [])])] "p1").2.1
      [("payments", .arr [])] (by rfl) (by rfl),
   (c7_result_visibility (fun _ => none)
      [("p1", .obj [("payments", .arr []),
        ("execution_result", .obj [("execution_status", .str "SUCCESS")])])] "p1").2.2.2
      [Op.getProp "p1"]
      ⟨[("payments", .arr []), ("execution_result", .obj [("execution_status", .str "SUCCESS")])],
       .obj [("execution_status", .str "SUCCESS")], rfl, rfl⟩
      (by rfl)⟩

/-! ## C9: best-effort artifact cleanup -/

/-- C9: the artifact cleanup never raises under any fault pattern (every
I/O fault is swallowed by a handler), and on a successful Retrieve
Execution Result it neither changes the in-memory store nor the response
payload, which is exactly the stored ExecutionResult — for every fault
environment and every starting file system. -/
theorem c9_cleanup_isolation (env : FsEnv) (store : Store) (fs : List String)
    (pid : String) (pf : Dict) (er : JVal) :
    (∀ env' fs' pid', ∃ g, cleanup_proposal_artifacts env' fs' pid' = .ok g) ∧
    (dlookup store pid = some (.obj pf) → dlookup pf "execution_result" = some er →
      ∃ fs2, get_payment_execution_result_io env store fs pid = (.ok er 200, store, fs2)) := by
  constructor
  · intro env' fs' pid'
    unfold cleanup_proposal_artifacts
    cases cleanup_body env' fs' pid' with
    | ok g => exact ⟨g, rfl⟩
    | error e => exact ⟨fs', rfl⟩
  · intro hst her
    have hm : jmem "execution_result" (.obj pf) = .ok true := by
      simp [jmem, dmem, her]
    have hj : jindex (.obj pf) "execution_result" = .ok er := by
      simp [jindex, her]
    refine ⟨match cleanup_proposal_artifacts env fs pid with
            | .ok f => f
            | .error _ => fs, ?_⟩
    simp [get_payment_execution_result_io, hst, hm, hj]

/-- Witness for C9: with a removal fault on every path, a listdir fault
and a makedirs fault, cleanup still returns normally and retrieval still
returns the stored result with the store intact. -/
theorem c9_witness :
    (∃ g, cleanup_proposal_artifacts ⟨fun _ => true, true, true⟩ ["proposal_p1.json"] "p1" =
      .ok g) ∧
    (∃ fs2, get_payment_execution_result_io ⟨fun _ => true, true, true⟩
        [("p1", .obj [("payments", .arr []),
          ("execution_result", .obj [("execution_status", .str "SUCCESS")])])]
        ["proposal_p1.json"] "p1" =
      (.ok (.obj [("execution_status", .str "SUCCESS")]) 200,
       [("p1", .obj [("payments", .arr []),
         ("execution_result", .obj [("execution_status", .str "SUCCESS")])])], fs2)) :=
  ⟨(c9_cleanup_isolation ⟨fun _ => true, true, true⟩
      [("p1", .obj [("payments", .arr []),
        ("execution_result", .obj [("execution_status", .str "SUCCESS")])])]
      ["proposal_p1.json"] "p1"
      [("payments", .arr []), ("execution_result", .obj [("execution_status", .str "SUCCESS")])]
      (.obj [("execution_status", .str "SUCCESS")])).1
      ⟨fun _ => true, true, true⟩ ["proposal_p1.json"] "p1",
   (c9_cleanup_isolation ⟨fun _ => true, true, true⟩
      [("p1", .obj [("payments", .arr []),
        ("execution_result", .obj [("execution_status", .str "SUCCESS")])])]
      ["proposal_p1.json"] "p1"
      [("payments", .arr []), ("execution_result", .obj [("execution_status", .str "SUCCESS")])]
      (.obj [("execution_status", .str "SUCCESS")])).2 (by rfl) (by rfl)⟩
